import Mathlib

/-!
Shallow embedding of the Resume-Ranker scoring core
(`scoring_engine.py`, `job_analyzer.py`) and proofs of the spec claims.

Modelling conventions:
- Python floats are modelled as exact rationals (`ℚ`); `round(x, 1)` is
  modelled by `round1` below.  No claim exercises a rounding tie, so the
  tie-breaking direction of `round` is immaterial to every statement.
- Python strings are Lean `String`s; `str.lower()` is `lowerStr` (ASCII,
  matching all inputs the claims mention); the Python substring operator
  `in` is `strContains`; `re.findall(r"\b\w+\b", ·)` is `tokenize`;
  `str.split()` is `pySplit`.
- External LLM calls (`generate_content` + `json.loads`) are modelled by
  an oracle `LLMCall α`: the call raises, returns empty text, or returns
  a parsed JSON object `α` whose fields may be absent (`Option`).
- The sklearn TF-IDF computation is an external capability modelled by an
  oracle `Except String ℚ` (the cosine similarity, or a raised exception
  message, e.g. the empty-vocabulary `ValueError` of `fit_transform`).
- Python dict results are structures; keys that are only sometimes present
  are `Option` fields (`none` = key absent).
-/

namespace ResumeRanker

/-- `round(x, 1)` of Python, on exact rationals: round `x*10` to the nearest
integer and divide by 10. -/
def round1 (q : ℚ) : ℚ := round (q * 10) / 10

/-- ASCII lowering of a string, modelling Python `str.lower()`. -/
def lowerStr (s : String) : String := String.mk (s.data.map Char.toLower)

/-- `leadsWith needle hay`: `needle` is an initial segment of `hay`. -/
def leadsWith : List Char → List Char → Bool
  | [], _ => true
  | _ :: _, [] => false
  | a :: as, b :: bs => a == b && leadsWith as bs

/-- Helper for `strContains`: does `needle` occur contiguously in the list? -/
def strContainsAux (needle : List Char) : List Char → Bool
  | [] => needle.isEmpty
  | c :: rest => leadsWith needle (c :: rest) || strContainsAux needle rest

/-- The Python substring test `needle in hay`. -/
def strContains (hay needle : String) : Bool := strContainsAux needle.data hay.data

/-- A regex `\w` character: ASCII letters, digits, underscore. -/
def isWordChar (c : Char) : Bool := c.isAlphanum || c == '_'

/-- Split a character list into the maximal runs of characters satisfying `p`
(accumulator holds the current run reversed). -/
def splitRunsAux (p : Char → Bool) : List Char → List Char → List (List Char)
  | [], acc => if acc.isEmpty then [] else [acc.reverse]
  | c :: cs, acc =>
    if p c then splitRunsAux p cs (c :: acc)
    else if acc.isEmpty then splitRunsAux p cs []
    else acc.reverse :: splitRunsAux p cs []

/-- Maximal runs of characters satisfying `p`. -/
def splitRuns (p : Char → Bool) (l : List Char) : List (List Char) :=
  splitRunsAux p l []

/-- `re.findall(r"\b\w+\b", s)`: the maximal word-character runs of `s`. -/
def tokenize (s : String) : List String :=
  (splitRuns isWordChar s.data).map String.mk

/-- Python `str.split()`: maximal runs of non-whitespace characters. -/
def pySplit (s : String) : List String :=
  (splitRuns (fun c => !c.isWhitespace) s.data).map String.mk

/-- Is the character at index `i` (if any) a word character? -/
def wordCharAt (text : List Char) (i : Nat) : Bool :=
  match text.get? i with
  | some c => isWordChar c
  | none => false

/-- A regex `\b` boundary holds at position `i` of `text`. -/
def boundaryAt (text : List Char) (i : Nat) : Bool :=
  (if i = 0 then false else wordCharAt text (i - 1)) != wordCharAt text i

/-- `re.search(r"\b" + re.escape(needle) + r"\b", text) is not None`:
some position starts a literal occurrence of `needle` flanked by `\b`
boundaries. -/
def regexSearchWB (needle text : List Char) : Bool :=
  (List.range (text.length + 1)).any fun i =>
    leadsWith needle (text.drop i) && boundaryAt text i &&
      boundaryAt text (i + needle.length)

/-- The fixed alias table of `_get_skill_variations` (canonical → aliases). -/
def substitutions : List (String × List String) :=
  [("javascript", ["js", "java script"]),
   ("typescript", ["ts"]),
   ("python", ["py"]),
   ("machine learning", ["ml", "machinelearning"]),
   ("artificial intelligence", ["ai"]),
   ("node.js", ["nodejs", "node"]),
   ("react.js", ["reactjs", "react"]),
   ("angular.js", ["angularjs", "angular"]),
   ("vue.js", ["vuejs", "vue"]),
   ("c++", ["cpp", "c plus plus"]),
   ("c#", ["csharp", "c sharp"]),
   ("sql server", ["sqlserver", "mssql"]),
   ("postgresql", ["postgres", "psql"])]

/-- `ScoringEngine._get_skill_variations`: the skill itself, its aliases when
it is canonical, and for every table row whose aliases contain it, the
canonical name and all that row's aliases; deduplicated (Python `set`). -/
def get_skill_variations (skill : String) : List String :=
  let variations := [skill]
  let skill_lower := lowerStr skill
  let variations :=
    match substitutions.find? (fun p => p.1 == skill_lower) with
    | some p => variations ++ p.2
    | none => variations
  let variations := variations ++
    (substitutions.filter (fun p => p.2.contains skill_lower)).flatMap
      (fun p => p.1 :: p.2)
  variations.dedup

/-- `ScoringEngine._skill_mentioned`: direct substring, then alias substring,
then (for single-word skills) a word-boundary regex search. -/
def skill_mentioned (skill text : String) : Bool :=
  let skill_lower := lowerStr skill
  if strContains text skill_lower then true
  else if (get_skill_variations skill_lower).any (fun v => strContains text v) then
    true
  else
    let skill_words := pySplit skill_lower
    if skill_words.length = 1 then
      regexSearchWB skill_lower.data text.data
    else false

/-- The structured requirements consumed by the hard matcher
(`parsed_jd.get(key, [])`; an absent key is the empty list). -/
structure Requirements where
  must_have_skills : List String
  good_to_have_skills : List String
  technologies : List String
deriving DecidableEq

/-- Result dict of `_calculate_hard_match` (`match_details` inlined). -/
structure HardMatchResult where
  score : ℚ
  found_skills : List String
  missing_must_have : List String
  missing_good_to_have : List String
  must_have_found : ℕ
  must_have_total : ℕ
  good_to_have_found : ℕ
  good_to_have_total : ℕ
deriving DecidableEq

/-- `ScoringEngine._calculate_hard_match`. -/
def calculate_hard_match (resume_text : String) (parsed_jd : Requirements) :
    HardMatchResult :=
  let resume_lower := lowerStr resume_text
  let must_have_skills := parsed_jd.must_have_skills
  let good_to_have_skills := parsed_jd.good_to_have_skills
  let all_technologies := parsed_jd.technologies
  let found_must_have := must_have_skills.filter (fun s => skill_mentioned s resume_lower)
  let found_good_to_have := good_to_have_skills.filter (fun s => skill_mentioned s resume_lower)
  let found_technologies := all_technologies.filter (fun t => skill_mentioned t resume_lower)
  let must_have_score : ℚ :=
    if must_have_skills ≠ [] then
      ((found_must_have.length : ℚ) / (must_have_skills.length : ℚ)) * 100
    else 0
  let good_to_have_score : ℚ :=
    if good_to_have_skills ≠ [] then
      ((found_good_to_have.length : ℚ) / (good_to_have_skills.length : ℚ)) * 50
    else 0
  let hard_score := min 100 (must_have_score + good_to_have_score)
  { score := round1 hard_score
    found_skills := found_must_have ++ found_good_to_have ++ found_technologies
    missing_must_have := must_have_skills.filter (fun s => !found_must_have.contains s)
    missing_good_to_have := good_to_have_skills.filter (fun s => !found_good_to_have.contains s)
    must_have_found := found_must_have.length
    must_have_total := must_have_skills.length
    good_to_have_found := found_good_to_have.length
    good_to_have_total := good_to_have_skills.length }

/-- The fixed scoring weights set in `ScoringEngine.__init__`. -/
structure Weights where
  hard_match : ℚ
  semantic_match : ℚ
  ai_analysis : ℚ

/-- `self.weights`: hard 0.4, semantic 0.4, AI 0.2. -/
def weights : Weights :=
  { hard_match := 4/10, semantic_match := 4/10, ai_analysis := 2/10 }

/-- `ScoringEngine._calculate_final_score` on the three component scores. -/
def calculate_final_score (hard_score semantic_score ai_score : ℚ) : ℚ :=
  round1 (hard_score * weights.hard_match + semantic_score * weights.semantic_match
    + ai_score * weights.ai_analysis)

/-- `ScoringEngine._get_verdict`. -/
def get_verdict (score : ℚ) : String :=
  if score ≥ 75 then "High"
  else if score ≥ 50 then "Medium"
  else "Low"

/-- Outcome of an external LLM call followed by JSON parsing: the call (or
`json.loads`) raises with a message, the response text is empty/falsy, or a
JSON object `α` is obtained. -/
inductive LLMCall (α : Type) where
  | raises (msg : String)
  | emptyText
  | parsed (j : α)
deriving DecidableEq

/-- JSON fields the Gemini semantic-similarity prompt may return; each may be
absent. -/
structure SimJson where
  similarity_score : Option ℚ
  explanation : Option String
  key_matches : Option (List String)
  key_gaps : Option (List String)
deriving DecidableEq

/-- Result dict of the similarity strategies; `none` = key absent. -/
structure SimResult where
  score : ℚ
  method : Option String
  explanation : Option String
  key_matches : Option (List String)
  key_gaps : Option (List String)
  error : Option String
  similarity : Option ℚ
  intersection_count : Option ℕ
  union_count : Option ℕ
deriving DecidableEq

/-- A `SimResult` with every optional key absent. -/
def SimResult.bare (score : ℚ) : SimResult :=
  { score := score, method := none, explanation := none, key_matches := none
    key_gaps := none, error := none, similarity := none
    intersection_count := none, union_count := none }

/-- `ScoringEngine._gemini_semantic_similarity`: clamp the reported score into
`[0, 100]` (default 50 when the field is absent) and round; any raise or empty
response is caught internally and becomes score 0 with method
`gemini_failed`. -/
def gemini_semantic_similarity : LLMCall SimJson → SimResult
  | .raises msg =>
      { SimResult.bare 0 with method := some "gemini_failed", error := some msg }
  | .emptyText =>
      { SimResult.bare 0 with
        method := some "gemini_failed"
        error := some "Empty response from Gemini" }
  | .parsed j =>
      let score := max 0 (min 100 (j.similarity_score.getD 50))
      { SimResult.bare (round1 score) with
        method := some "gemini_semantic"
        explanation := some (j.explanation.getD "")
        key_matches := some (j.key_matches.getD [])
        key_gaps := some (j.key_gaps.getD []) }

/-- `ScoringEngine._tfidf_similarity` given the cosine similarity `sim`
computed by the sklearn capability: scale to 0–100, clamp, round. -/
def tfidf_similarity (sim : ℚ) : SimResult :=
  { SimResult.bare (round1 (max 0 (min 100 (sim * 100)))) with
    method := some "tfidf", similarity := some sim }

/-- The stop words removed by `_word_overlap_similarity`. -/
def stopWords : List String :=
  ["the", "and", "or", "but", "in", "on", "at", "to", "for", "of", "with",
   "by", "from", "as", "is", "are", "was", "were", "be", "been", "being"]

/-- The word-token set of a text after lowering and stop-word removal. -/
def wordSet (s : String) : Finset String :=
  (tokenize (lowerStr s)).toFinset \ stopWords.toFinset

/-- `ScoringEngine._word_overlap_similarity`: Jaccard similarity of the two
stop-word-filtered token sets, scaled to 0–100 (0 when the union is empty). -/
def word_overlap_similarity (resume_text job_description : String) : SimResult :=
  let resume_words := wordSet resume_text
  let jd_words := wordSet job_description
  let intersection := (resume_words ∩ jd_words).card
  let union := (resume_words ∪ jd_words).card
  let jaccard : ℚ := if union > 0 then (intersection : ℚ) / (union : ℚ) else 0
  { SimResult.bare (round1 (jaccard * 100)) with
    method := some "word_overlap"
    intersection_count := some intersection
    union_count := some union }

/-- The neutral result of `_calculate_semantic_match`'s `except` branch:
score 50 with the exception message under the `error` key, no other key. -/
def errorSimResult (e : String) : SimResult :=
  { score := 50, method := none, explanation := none, key_matches := none
    key_gaps := none, error := some e, similarity := none
    intersection_count := none, union_count := none }

/-- `ScoringEngine._calculate_semantic_match`, with the external effects as
oracles: the Gemini call outcome `g`, the `SKLEARN_AVAILABLE` flag, and the
TF-IDF capability `tf` (`.error` = the sklearn computation raised; the raise
is caught by this method's own `except`, which returns score 50 with an
`error` key — it does not fall through to word overlap). -/
def calculate_semantic_match (g : LLMCall SimJson) (sklearn_available : Bool)
    (tf : Except String ℚ) (resume_text job_description : String) : SimResult :=
  let gemini_result := gemini_semantic_similarity g
  if gemini_result.score > 0 then gemini_result
  else if sklearn_available then
    match tf with
    | .ok sim => tfidf_similarity sim
    | .error e => errorSimResult e
  else word_overlap_similarity resume_text job_description

/-- JSON fields the comprehensive-analysis prompt may return. -/
structure AiJson where
  score : Option ℚ
  confidence : Option ℚ
  missing_skills : Option (List String)
  strengths : Option (List String)
  weaknesses : Option (List String)
  experience_match : Option String
  education_match : Option String
  overall_fit : Option String
  detailed_feedback : Option String
  improvement_areas : Option (List String)
  recommendation : Option String
deriving DecidableEq

/-- Result dict of `_ai_analysis`: `score` and `confidence` are always set
(clamped); the remaining keys are whatever the JSON held (`none` = absent). -/
structure AiResult where
  score : ℚ
  confidence : ℚ
  missing_skills : Option (List String)
  strengths : Option (List String)
  weaknesses : Option (List String)
  experience_match : Option String
  education_match : Option String
  overall_fit : Option String
  detailed_feedback : Option String
  improvement_areas : Option (List String)
  recommendation : Option String
deriving DecidableEq

/-- The default analysis `_ai_analysis` returns when the call or the parse
fails with message `msg`. -/
def defaultAiResult (msg : String) : AiResult :=
  { score := 50
    confidence := 1/2
    missing_skills := some []
    strengths := some []
    weaknesses := some ["Analysis error: " ++ msg]
    experience_match := some "unknown"
    education_match := some "unknown"
    overall_fit := some "unknown"
    detailed_feedback := some ("AI analysis failed: " ++ msg)
    improvement_areas := some []
    recommendation := some "review_manually" }

/-- `ScoringEngine._ai_analysis` over the LLM-call oracle: on success, the
parsed JSON with `score` clamped into `[0, 100]` (default 50) and `confidence`
clamped into `[0, 1]` (default 0.8); on raise or empty response, the default
analysis. -/
def ai_analysis : LLMCall AiJson → AiResult
  | .raises msg => defaultAiResult msg
  | .emptyText => defaultAiResult "Empty response from Gemini model"
  | .parsed j =>
      { score := max 0 (min 100 (j.score.getD 50))
        confidence := max 0 (min 1 (j.confidence.getD (8/10)))
        missing_skills := j.missing_skills
        strengths := j.strengths
        weaknesses := j.weaknesses
        experience_match := j.experience_match
        education_match := j.education_match
        overall_fit := j.overall_fit
        detailed_feedback := j.detailed_feedback
        improvement_areas := j.improvement_areas
        recommendation := j.recommendation }

/-- `ScoringEngine._generate_suggestions` (only the AI analysis is consulted;
the `resume_text` and `parsed_jd` parameters are unused in the source). -/
def generate_suggestions (resume_text : String) (parsed_jd : Requirements)
    (ai : AiResult) : List String :=
  let suggestions := ai.improvement_areas.getD []
  let missing_skills := ai.missing_skills.getD []
  let suggestions := suggestions ++
    (if missing_skills ≠ [] then
      ["Consider adding these skills to your resume: " ++
        String.intercalate ", " (missing_skills.take 5)]
    else [])
  let suggestions := suggestions ++
    (if ai.experience_match.getD "" = "poor" then
      ["Highlight relevant projects or experience that demonstrate your capabilities"]
    else [])
  let suggestions := suggestions ++
    (if ai.education_match.getD "" = "poor" then
      ["Consider pursuing relevant certifications or additional training"]
    else [])
  let suggestions :=
    if suggestions = [] then
      ["Tailor your resume to better match the job requirements",
       "Add more specific examples of your achievements",
       "Include relevant keywords from the job description"]
    else suggestions
  suggestions.take 5

/-- The complete analysis record returned by `analyze_resume`
(`score_breakdown` inlined as the three `breakdown_*` fields). -/
structure AnalysisResult where
  relevance_score : ℚ
  hard_match_score : ℚ
  semantic_score : ℚ
  ai_score : ℚ
  verdict : String
  confidence : ℚ
  missing_skills : List String
  found_skills : List String
  suggestions : List String
  detailed_feedback : String
  breakdown_hard : ℚ
  breakdown_semantic : ℚ
  breakdown_ai : ℚ
deriving DecidableEq

/-- The minimal result of `analyze_resume`'s `except` branch for message `e`. -/
def errorAnalysisResult (e : String) : AnalysisResult :=
  { relevance_score := 0
    hard_match_score := 0
    semantic_score := 0
    ai_score := 0
    verdict := "Low"
    confidence := 1/10
    missing_skills := []
    found_skills := []
    suggestions := ["Error during analysis: " ++ e]
    detailed_feedback := "Analysis failed: " ++ e
    breakdown_hard := 0
    breakdown_semantic := 0
    breakdown_ai := 0 }

/-- `ScoringEngine.analyze_resume` with the three pipeline steps as fallible
oracles (`.error msg` = that step raised with message `msg`; the steps run in
order, so the first raising step is the one the `except` catches).  The
aggregation (final score, verdict, suggestions) is the source's. -/
def analyze_resume (hard : Except String HardMatchResult)
    (sem : Except String SimResult) (ai : Except String AiResult)
    (resume_text : String) (parsed_jd : Requirements) : AnalysisResult :=
  let run : Except String AnalysisResult := do
    let h ← hard
    let s ← sem
    let a ← ai
    let final_score := calculate_final_score h.score s.score a.score
    pure
      { relevance_score := final_score
        hard_match_score := h.score
        semantic_score := s.score
        ai_score := a.score
        verdict := get_verdict final_score
        confidence := a.confidence
        missing_skills := a.missing_skills.getD []
        found_skills := h.found_skills
        suggestions := generate_suggestions resume_text parsed_jd a
        detailed_feedback := a.detailed_feedback.getD ""
        breakdown_hard := h.score
        breakdown_semantic := s.score
        breakdown_ai := a.score }
  match run with
  | .ok r => r
  | .error e => errorAnalysisResult e

/-- The structured job-analysis dict of `job_analyzer.py` (an absent skill
list is the empty list; an absent experience string is `""`). -/
structure JobAnalysis where
  role_title : String
  must_have_skills : List String
  good_to_have_skills : List String
  qualifications : List String
  experience_required : String
  key_responsibilities : List String
  technologies : List String
  soft_skills : List String
  education_level : String
  industry : String
  employment_type : String
deriving DecidableEq

/-- `JobAnalyzer._merge_analyses`: start from the LLM result; substitute the
rule-based skill lists when the LLM ones are empty/absent; union the
technology sets (Python `list(set(...))` produces the union in unspecified
order, embedded here as `dedup` of the concatenation — only the resulting set
is meaningful); substitute the rule-based experience when the LLM one is
`"Not specified"` or falsy. -/
def merge_analyses (ai_analysis rule_analysis : JobAnalysis) : JobAnalysis :=
  { ai_analysis with
    must_have_skills :=
      if ai_analysis.must_have_skills = [] then rule_analysis.must_have_skills
      else ai_analysis.must_have_skills
    good_to_have_skills :=
      if ai_analysis.good_to_have_skills = [] then rule_analysis.good_to_have_skills
      else ai_analysis.good_to_have_skills
    technologies :=
      (ai_analysis.technologies ++ rule_analysis.technologies).dedup
    experience_required :=
      if ai_analysis.experience_required = "Not specified"
          ∨ ai_analysis.experience_required = "" then
        rule_analysis.experience_required
      else ai_analysis.experience_required }

/-! ### Helper lemmas -/

lemma round1_hundred : round1 100 = 100 := by rw [round1]; norm_num

lemma round1_fifty : round1 50 = 50 := by rw [round1]; norm_num

lemma round1_zero : round1 0 = 0 := by rw [round1]; norm_num

/-- The spec's must-have fraction: matched over total, 0 for an empty list. -/
def mustHaveFractionSpec (resume_text : String) (jd : Requirements) : ℚ :=
  if jd.must_have_skills = [] then 0
  else ((jd.must_have_skills.filter
      (fun s => skill_mentioned s (lowerStr resume_text))).length : ℚ)
    / (jd.must_have_skills.length : ℚ)

/-- The spec's good-to-have fraction: matched over total, 0 for an empty
list. -/
def goodToHaveFractionSpec (resume_text : String) (jd : Requirements) : ℚ :=
  if jd.good_to_have_skills = [] then 0
  else ((jd.good_to_have_skills.filter
      (fun s => skill_mentioned s (lowerStr resume_text))).length : ℚ)
    / (jd.good_to_have_skills.length : ℚ)

/-! ### Claim theorems -/

/-- The score field of `calculate_hard_match`, spelled out (definitional). -/
lemma hard_match_score_def (resume_text : String) (jd : Requirements) :
    (calculate_hard_match resume_text jd).score =
      round1 (min 100
        ((if jd.must_have_skills ≠ [] then
            ((jd.must_have_skills.filter
                (fun s => skill_mentioned s (lowerStr resume_text))).length : ℚ)
              / (jd.must_have_skills.length : ℚ) * 100
          else 0) +
         (if jd.good_to_have_skills ≠ [] then
            ((jd.good_to_have_skills.filter
                (fun s => skill_mentioned s (lowerStr resume_text))).length : ℚ)
              / (jd.good_to_have_skills.length : ℚ) * 50
          else 0))) := rfl

/-- C2: the hard-match score is `round(min(100, must_fraction×100 +
good_fraction×50), 1)` with each fraction 0 on an empty list; a fully matched
non-empty must-have list forces score 100, and an empty must-have list with a
fully matched non-empty good-to-have list forces score 50. -/
theorem hard_match_score_formula (resume_text : String) (jd : Requirements) :
    (calculate_hard_match resume_text jd).score =
      round1 (min 100 (mustHaveFractionSpec resume_text jd * 100
        + goodToHaveFractionSpec resume_text jd * 50)) ∧
    (jd.must_have_skills ≠ [] →
      (∀ s ∈ jd.must_have_skills, skill_mentioned s (lowerStr resume_text) = true) →
      (calculate_hard_match resume_text jd).score = 100) ∧
    (jd.must_have_skills = [] → jd.good_to_have_skills ≠ [] →
      (∀ s ∈ jd.good_to_have_skills, skill_mentioned s (lowerStr resume_text) = true) →
      (calculate_hard_match resume_text jd).score = 50) := by
  refine ⟨?_, ?_, ?_⟩
  · rw [hard_match_score_def]
    unfold mustHaveFractionSpec goodToHaveFractionSpec
    by_cases hm : jd.must_have_skills = [] <;>
      by_cases hg : jd.good_to_have_skills = [] <;>
      simp [hm, hg]
  · intro hm hall
    have hfilter : jd.must_have_skills.filter
        (fun s => skill_mentioned s (lowerStr resume_text)) = jd.must_have_skills :=
      List.filter_eq_self.mpr (by simpa using hall)
    have hlen : ((jd.must_have_skills.length : ℚ)) ≠ 0 :=
      Nat.cast_ne_zero.mpr (by simpa [List.length_eq_zero] using hm)
    have hgood : (0 : ℚ) ≤
        (if jd.good_to_have_skills ≠ [] then
          ((jd.good_to_have_skills.filter
              (fun s => skill_mentioned s (lowerStr resume_text))).length : ℚ)
            / (jd.good_to_have_skills.length : ℚ) * 50
        else 0) := by
      by_cases hg : jd.good_to_have_skills = []
      · simp [hg]
      · rw [if_pos hg]
        positivity
    rw [hard_match_score_def, if_pos hm, hfilter, div_self hlen, one_mul]
    rw [min_eq_left (by linarith), round1_hundred]
  · intro hm hg hall
    have hfilter : jd.good_to_have_skills.filter
        (fun s => skill_mentioned s (lowerStr resume_text)) = jd.good_to_have_skills :=
      List.filter_eq_self.mpr (by simpa using hall)
    have hlen : ((jd.good_to_have_skills.length : ℚ)) ≠ 0 :=
      Nat.cast_ne_zero.mpr (by simpa [List.length_eq_zero] using hg)
    rw [hard_match_score_def, if_neg (by simp [hm]), if_pos hg, hfilter,
      div_self hlen, one_mul, zero_add]
    rw [min_eq_right (by norm_num), round1_fifty]

/-- Witness for C2: both hypothesis-bearing conjuncts applied at concrete
inputs (`"python"` fully matches a singleton must-have list, and a singleton
good-to-have list with empty must-have). -/
theorem hard_match_score_formula_witness :
    (calculate_hard_match "Python and SQL expert"
      ⟨["python", "sql"], [], []⟩).score = 100 ∧
    (calculate_hard_match "knows python well" ⟨[], ["python"], []⟩).score = 50 :=
  ⟨(hard_match_score_formula "Python and SQL expert" ⟨["python", "sql"], [], []⟩).2.1
      (by decide) (by decide),
   (hard_match_score_formula "knows python well" ⟨[], ["python"], []⟩).2.2
      (by decide) (by decide) (by decide)⟩

/-- C3: the final score is `round(hard×0.4 + semantic×0.4 + ai×0.2, 1)` for
every triple of component scores — the weights are the fixed constants of
`ScoringEngine.__init__` and are applied unconditionally (no renormalization
for defaulted components). -/
theorem final_score_weighted_sum (h s a : ℚ) :
    calculate_final_score h s a = round1 (h * (4/10) + s * (4/10) + a * (2/10)) ∧
    weights.hard_match = 4/10 ∧ weights.semantic_match = 4/10 ∧
    weights.ai_analysis = 2/10 :=
  ⟨rfl, rfl, rfl, rfl⟩

/-- C4: the verdict is `"High"` iff the score is at least 75, `"Medium"` iff
it is in `[50, 75)`, `"Low"` iff below 50; at the boundaries 75.0 is High,
74.9 and 50.0 are Medium, 49.9 is Low. -/
theorem verdict_boundaries (s : ℚ) :
    (get_verdict s = "High" ↔ 75 ≤ s) ∧
    (get_verdict s = "Medium" ↔ 50 ≤ s ∧ s < 75) ∧
    (get_verdict s = "Low" ↔ s < 50) ∧
    get_verdict 75 = "High" ∧ get_verdict (749/10) = "Medium" ∧
    get_verdict 50 = "Medium" ∧ get_verdict (499/10) = "Low" := by
  refine ⟨?_, ?_, ?_, ?_, ?_, ?_, ?_⟩
  · unfold get_verdict
    split_ifs with h1 h2 <;> simp_all
  · unfold get_verdict
    split_ifs with h1 h2 <;> simp_all
  · unfold get_verdict
    split_ifs with h1 h2 <;> simp_all
    all_goals linarith
  · unfold get_verdict; norm_num
  · unfold get_verdict; norm_num
  · unfold get_verdict; norm_num
  · unfold get_verdict; norm_num

/-- C6 (corrected): the claim's example `_skill_mentioned("r", "I use React
framework")` is in fact `true` — the direct substring check runs first and
`"r"` occurs inside `"framework"`, so the word-boundary branch never gets to
prevent the subword hit. -/
theorem skill_mentioned_r_counterexample :
    skill_mentioned "r" "I use React framework" = true ∧
    skill_mentioned "r" "i use react framework" = true := by
  constructor <;> decide

/-- C6 (amended): `_skill_mentioned` returns true iff the lowercased skill is
a substring of the text, or some alias from the variation table is, or (for
single-word skills) a word-boundary regex matches; since a word-boundary match
entails a substring occurrence, the regex branch only ever adds matches —
`"c++"` is found in `"I love cpp development"` via the alias table, and `"r"`
is found in `"I use React framework"` via the substring check (the subword hit
is not prevented). -/
theorem skill_mentioned_spec (skill text : String) :
    (skill_mentioned skill text = true ↔
      (strContains text (lowerStr skill) = true ∨
       (get_skill_variations (lowerStr skill)).any
         (fun v => strContains text v) = true ∨
       ((pySplit (lowerStr skill)).length = 1 ∧
         regexSearchWB (lowerStr skill).data text.data = true))) ∧
    skill_mentioned "c++" "I love cpp development" = true ∧
    skill_mentioned "r" "I use React framework" = true := by
  refine ⟨?_, by decide, by decide⟩
  simp only [skill_mentioned]
  split_ifs with h1 h2 h3 <;> simp_all

/-- The score field of `word_overlap_similarity`, spelled out (definitional). -/
lemma word_overlap_score_def (r j : String) :
    (word_overlap_similarity r j).score =
      round1 ((if (wordSet r ∪ wordSet j).card > 0 then
          ((wordSet r ∩ wordSet j).card : ℚ) / ((wordSet r ∪ wordSet j).card : ℚ)
        else 0) * 100) := rfl

/-- Identical texts with a non-empty filtered token set get word-overlap
score 100. -/
lemma word_overlap_self (r : String) (h : wordSet r ≠ ∅) :
    (word_overlap_similarity r r).score = 100 := by
  have hc : (wordSet r).card ≠ 0 := by simpa [Finset.card_eq_zero] using h
  rw [word_overlap_score_def]
  simp only [Finset.inter_self, Finset.union_self]
  rw [if_pos (Nat.pos_of_ne_zero hc), div_self (Nat.cast_ne_zero.mpr hc),
    one_mul, round1_hundred]

/-- Disjoint non-empty vocabularies get word-overlap score 0. -/
lemma word_overlap_disjoint (r j : String) (hr : wordSet r ≠ ∅)
    (hinter : wordSet r ∩ wordSet j = ∅) :
    (word_overlap_similarity r j).score = 0 := by
  have hu : (wordSet r ∪ wordSet j).card ≠ 0 := by
    simp only [ne_eq, Finset.card_eq_zero, Finset.union_eq_empty]
    exact fun hc => hr hc.1
  rw [word_overlap_score_def, if_pos (Nat.pos_of_ne_zero hu), hinter]
  simp [round1_zero]

/-- An empty token union gets word-overlap score 0 (no division error). -/
lemma word_overlap_empty_union (r j : String)
    (h : (wordSet r ∪ wordSet j).card = 0) :
    (word_overlap_similarity r j).score = 0 := by
  rw [word_overlap_score_def]
  simp [h, round1_zero]

/-- C7: the word-overlap fallback score is `round(|∩|/|∪| × 100, 1)` over the
stop-word-filtered token sets, with 0 (not an error) on an empty union;
identical texts with a non-empty filtered token set score 100.0, and disjoint
non-empty vocabularies score 0.0. -/
theorem word_overlap_jaccard (r j : String) :
    (word_overlap_similarity r j).score =
      round1 (if (wordSet r ∪ wordSet j).card = 0 then 0
        else ((wordSet r ∩ wordSet j).card : ℚ)
          / ((wordSet r ∪ wordSet j).card : ℚ) * 100) ∧
    ((wordSet r ∪ wordSet j).card = 0 → (word_overlap_similarity r j).score = 0) ∧
    (r = j → wordSet r ≠ ∅ → (word_overlap_similarity r j).score = 100) ∧
    (wordSet r ≠ ∅ → wordSet j ≠ ∅ → wordSet r ∩ wordSet j = ∅ →
      (word_overlap_similarity r j).score = 0) := by
  refine ⟨?_, word_overlap_empty_union r j, ?_, ?_⟩
  · rw [word_overlap_score_def]
    by_cases h : (wordSet r ∪ wordSet j).card = 0
    · simp [h]
    · rw [if_pos (Nat.pos_of_ne_zero h), if_neg h]
  · intro hrj hne
    subst hrj
    exact word_overlap_self r hne
  · intro hr _ hinter
    exact word_overlap_disjoint r j hr hinter

/-- Witness for C7: identical texts score 100, disjoint vocabularies score 0,
and all-stop-word texts (empty union) score 0. -/
theorem word_overlap_jaccard_witness :
    (word_overlap_similarity "python developer" "python developer").score = 100 ∧
    (word_overlap_similarity "alpha beta" "gamma delta").score = 0 ∧
    (word_overlap_similarity "the of" "and or").score = 0 :=
  ⟨(word_overlap_jaccard "python developer" "python developer").2.2.1 rfl (by decide),
   (word_overlap_jaccard "alpha beta" "gamma delta").2.2.2 (by decide) (by decide)
     (by decide),
   (word_overlap_jaccard "the of" "and or").2.1 (by decide)⟩

/-- C5 (counterexample): with the LLM down and a raising TF-IDF capability,
the estimator returns the score-50 error result — the raising strategy is not
skipped: the next strategy in order (word overlap), which would return 100
with its method tag on this input, is never tried. -/
theorem semantic_match_no_skip_on_raise :
    (calculate_semantic_match (.raises "llm down") true (.error "empty vocabulary")
        "python developer" "python developer").score = 50 ∧
    (calculate_semantic_match (.raises "llm down") true (.error "empty vocabulary")
        "python developer" "python developer").method = none ∧
    (calculate_semantic_match (.raises "llm down") true (.error "empty vocabulary")
        "python developer" "python developer").error = some "empty vocabulary" ∧
    (word_overlap_similarity "python developer" "python developer").score = 100 ∧
    (word_overlap_similarity "python developer" "python developer").method
      = some "word_overlap" := by
  have hmain : calculate_semantic_match (.raises "llm down") true
      (.error "empty vocabulary") "python developer" "python developer"
      = errorSimResult "empty vocabulary" := by
    norm_num [calculate_semantic_match, gemini_semantic_similarity, SimResult.bare]
  refine ⟨by rw [hmain]; rfl, by rw [hmain]; rfl, by rw [hmain]; rfl,
    word_overlap_self "python developer" (by decide), rfl⟩

/-- C5 (amended): exactly one strategy's result is returned, in the order LLM
then — when the vectorization capability is available — TF-IDF, else word
overlap; an LLM score of exactly 0 (which is what an LLM call failure
produces) causes fallthrough past the LLM strategy, but a TF-IDF strategy that
raises is NOT skipped to word overlap: the estimator returns the score-50
error result instead, and word overlap runs only when the capability is
unavailable. -/
theorem semantic_match_strategy_order (g : LLMCall SimJson) (sk : Bool)
    (tf : Except String ℚ) (r j : String) :
    ((gemini_semantic_similarity g).score > 0 →
      calculate_semantic_match g sk tf r j = gemini_semantic_similarity g) ∧
    (∀ msg, g = .raises msg → (gemini_semantic_similarity g).score = 0) ∧
    ((gemini_semantic_similarity g).score = 0 → sk = true →
      (∀ v, tf = .ok v →
        calculate_semantic_match g sk tf r j = tfidf_similarity v) ∧
      (∀ e, tf = .error e →
        calculate_semantic_match g sk tf r j
          = errorSimResult e)) ∧
    ((gemini_semantic_similarity g).score = 0 → sk = false →
      calculate_semantic_match g sk tf r j = word_overlap_similarity r j) := by
  refine ⟨?_, ?_, ?_, ?_⟩
  · intro h
    unfold calculate_semantic_match
    rw [if_pos h]
  · intro msg h
    subst h
    rfl
  · intro h0 hsk
    subst hsk
    constructor
    · intro v hv
      subst hv
      simp [calculate_semantic_match, h0]
    · intro e he
      subst he
      simp [calculate_semantic_match, h0]
  · intro h0 hsk
    subst hsk
    simp [calculate_semantic_match, h0]

/-- Witness for C5: each branch of the strategy order at concrete inputs. -/
theorem semantic_match_strategy_order_witness :
    calculate_semantic_match (.parsed ⟨some 80, none, none, none⟩) true
        (.ok (1/2)) "a" "b"
      = gemini_semantic_similarity (.parsed ⟨some 80, none, none, none⟩) ∧
    calculate_semantic_match (.raises "down") true (.ok (1/2)) "a" "b"
      = tfidf_similarity (1/2) ∧
    calculate_semantic_match (.raises "down") false (.ok (1/2)) "a" "b"
      = word_overlap_similarity "a" "b" :=
  ⟨(semantic_match_strategy_order (.parsed ⟨some 80, none, none, none⟩) true
      (.ok (1/2)) "a" "b").1
      (by norm_num [gemini_semantic_similarity, SimResult.bare, round1]),
   ((semantic_match_strategy_order (.raises "down") true (.ok (1/2)) "a" "b").2.2.1
      rfl rfl).1 (1/2) rfl,
   (semantic_match_strategy_order (.raises "down") false (.ok (1/2)) "a" "b").2.2.2
      rfl rfl⟩

/-- C10: when the TF-IDF strategy raises (its raise escapes to the estimator's
own handler), no remaining strategy is tried: the result is exactly score 50
with the exception message under the `error` key and no method tag. -/
theorem semantic_match_raise_returns_50 (g : LLMCall SimJson) (e : String)
    (r j : String) (h : (gemini_semantic_similarity g).score = 0) :
    calculate_semantic_match g true (.error e) r j
      = errorSimResult e ∧
    (calculate_semantic_match g true (.error e) r j).score = 50 ∧
    (calculate_semantic_match g true (.error e) r j).method = none ∧
    (calculate_semantic_match g true (.error e) r j).error = some e := by
  have hmain : calculate_semantic_match g true (.error e) r j
      = errorSimResult e := by
    simp [calculate_semantic_match, h]
  exact ⟨hmain, by rw [hmain]; rfl, by rw [hmain]; rfl, by rw [hmain]; rfl⟩

/-- Witness for C10: the LLM raising gives score 0, so a raising TF-IDF
capability yields the error result. -/
theorem semantic_match_raise_returns_50_witness :
    calculate_semantic_match (.raises "llm down") true (.error "boom") "r" "j"
      = errorSimResult "boom" :=
  (semantic_match_raise_returns_50 (.raises "llm down") "boom" "r" "j" rfl).1

/-- C9: the qualitative review's score is always in `[0, 100]` and its
confidence in `[0, 1]` (clamped post-hoc); on call failure (raise or empty
response) the result is exactly the default: score 50, confidence 0.5,
recommendation `review_manually`, a single `Analysis error:` weakness, and all
three match fields `unknown`. -/
theorem ai_analysis_clamped_default (o : LLMCall AiJson) :
    (0 ≤ (ai_analysis o).score ∧ (ai_analysis o).score ≤ 100 ∧
      0 ≤ (ai_analysis o).confidence ∧ (ai_analysis o).confidence ≤ 1) ∧
    (∀ msg, o = .raises msg → ai_analysis o = defaultAiResult msg) ∧
    (o = .emptyText →
      ai_analysis o = defaultAiResult "Empty response from Gemini model") ∧
    (∀ msg, (defaultAiResult msg).score = 50 ∧
      (defaultAiResult msg).confidence = 1/2 ∧
      (defaultAiResult msg).recommendation = some "review_manually" ∧
      (defaultAiResult msg).weaknesses = some ["Analysis error: " ++ msg] ∧
      (defaultAiResult msg).experience_match = some "unknown" ∧
      (defaultAiResult msg).education_match = some "unknown" ∧
      (defaultAiResult msg).overall_fit = some "unknown") := by
  refine ⟨?_, ?_, ?_, ?_⟩
  · cases o with
    | raises msg => norm_num [ai_analysis, defaultAiResult]
    | emptyText => norm_num [ai_analysis, defaultAiResult]
    | parsed j =>
        exact ⟨le_max_left _ _, max_le (by norm_num) (min_le_left _ _),
          le_max_left _ _, max_le (by norm_num) (min_le_left _ _)⟩
  · intro msg h
    subst h
    rfl
  · intro h
    subst h
    rfl
  · intro msg
    exact ⟨rfl, rfl, rfl, rfl, rfl, rfl, rfl⟩

/-- Witness for C9: a raising call yields the default, and the clamp bounds an
out-of-range parsed score (250 → at most 100). -/
theorem ai_analysis_clamped_default_witness :
    ai_analysis (.raises "quota exceeded") = defaultAiResult "quota exceeded" ∧
    (ai_analysis (.parsed ⟨some 250, some 2, none, none, none, none, none, none,
        none, none, none⟩)).score ≤ 100 :=
  ⟨(ai_analysis_clamped_default (.raises "quota exceeded")).2.1 "quota exceeded" rfl,
   (ai_analysis_clamped_default (.parsed ⟨some 250, some 2, none, none, none, none,
      none, none, none, none, none⟩)).1.2.1⟩

/-- C8: the merge starts from the LLM analysis; an empty LLM skill list is
replaced by the rule-based one, the technology sets are unioned, an empty or
`"Not specified"` LLM experience is replaced by the rule-based value, and
every other LLM field is unchanged. -/
theorem merge_analyses_policy (a r : JobAnalysis) :
    (a.must_have_skills = [] →
      (merge_analyses a r).must_have_skills = r.must_have_skills) ∧
    (a.must_have_skills ≠ [] →
      (merge_analyses a r).must_have_skills = a.must_have_skills) ∧
    (a.good_to_have_skills = [] →
      (merge_analyses a r).good_to_have_skills = r.good_to_have_skills) ∧
    (a.good_to_have_skills ≠ [] →
      (merge_analyses a r).good_to_have_skills = a.good_to_have_skills) ∧
    (merge_analyses a r).technologies.toFinset
      = a.technologies.toFinset ∪ r.technologies.toFinset ∧
    (a.experience_required = "Not specified" ∨ a.experience_required = "" →
      (merge_analyses a r).experience_required = r.experience_required) ∧
    (a.experience_required ≠ "Not specified" ∧ a.experience_required ≠ "" →
      (merge_analyses a r).experience_required = a.experience_required) ∧
    (merge_analyses a r).role_title = a.role_title ∧
    (merge_analyses a r).qualifications = a.qualifications ∧
    (merge_analyses a r).key_responsibilities = a.key_responsibilities ∧
    (merge_analyses a r).soft_skills = a.soft_skills ∧
    (merge_analyses a r).education_level = a.education_level ∧
    (merge_analyses a r).industry = a.industry ∧
    (merge_analyses a r).employment_type = a.employment_type := by
  refine ⟨?_, ?_, ?_, ?_, ?_, ?_, ?_, rfl, rfl, rfl, rfl, rfl, rfl, rfl⟩
  · intro h
    simp [merge_analyses, h]
  · intro h
    simp [merge_analyses, h]
  · intro h
    simp [merge_analyses, h]
  · intro h
    simp [merge_analyses, h]
  · simp only [merge_analyses]
    ext x
    simp [List.mem_dedup]
  · intro h
    simp [merge_analyses, h]
  · intro h
    simp [merge_analyses, h.1, h.2]

/-- Witness for C8: empty LLM lists and unset experience are filled from the
rule-based analysis; a set LLM experience is kept. -/
theorem merge_analyses_policy_witness :
    (merge_analyses
        ⟨"rt", [], [], [], "Not specified", [], ["python"], [], "el", "ind", "et"⟩
        ⟨"rt2", ["sql"], ["docker"], [], "3 years", [], ["java"], [], "el2", "ind2",
          "et2"⟩).must_have_skills = ["sql"] ∧
    (merge_analyses
        ⟨"rt", ["go"], [], [], "5 years", [], [], [], "el", "ind", "et"⟩
        ⟨"rt2", ["sql"], [], [], "3 years", [], [], [], "el2", "ind2",
          "et2"⟩).experience_required = "5 years" :=
  ⟨(merge_analyses_policy _ _).1 rfl,
   (merge_analyses_policy _ _).2.2.2.2.2.2.1 ⟨by decide, by decide⟩⟩

/-- C1: `analyze_resume` never raises; if any pipeline step raises (the first
raising step in order is the one caught), the caller still receives the
complete minimal result: all scores 0, verdict `"Low"`, confidence 0.1, and a
one-element suggestions list describing the error. -/
theorem analyze_resume_error_fallback (hard : Except String HardMatchResult)
    (sem : Except String SimResult) (ai : Except String AiResult)
    (resume_text : String) (parsed_jd : Requirements) (e : String)
    (herr : hard = .error e ∨
      (∃ h, hard = .ok h ∧ sem = .error e) ∨
      (∃ h s, hard = .ok h ∧ sem = .ok s ∧ ai = .error e)) :
    analyze_resume hard sem ai resume_text parsed_jd = errorAnalysisResult e ∧
    (analyze_resume hard sem ai resume_text parsed_jd).relevance_score = 0 ∧
    (analyze_resume hard sem ai resume_text parsed_jd).hard_match_score = 0 ∧
    (analyze_resume hard sem ai resume_text parsed_jd).semantic_score = 0 ∧
    (analyze_resume hard sem ai resume_text parsed_jd).ai_score = 0 ∧
    (analyze_resume hard sem ai resume_text parsed_jd).verdict = "Low" ∧
    (analyze_resume hard sem ai resume_text parsed_jd).confidence = 1/10 ∧
    (analyze_resume hard sem ai resume_text parsed_jd).suggestions
      = ["Error during analysis: " ++ e] ∧
    (analyze_resume hard sem ai resume_text parsed_jd).suggestions.length = 1 := by
  have hmain : analyze_resume hard sem ai resume_text parsed_jd
      = errorAnalysisResult e := by
    rcases herr with h | ⟨h', hh, hs⟩ | ⟨h', s', hh, hs, ha⟩ <;> subst_vars <;> rfl
  rw [hmain]
  exact ⟨rfl, rfl, rfl, rfl, rfl, rfl, rfl, rfl, rfl⟩

/-- Witness for C1: a raising hard-match step yields the minimal error
result. -/
theorem analyze_resume_error_fallback_witness :
    analyze_resume (.error "total failure") (.ok (SimResult.bare 50))
      (.ok (defaultAiResult "x")) "resume text" ⟨[], [], []⟩
      = errorAnalysisResult "total failure" :=
  (analyze_resume_error_fallback (.error "total failure") (.ok (SimResult.bare 50))
    (.ok (defaultAiResult "x")) "resume text" ⟨[], [], []⟩ "total failure"
    (Or.inl rfl)).1

end ResumeRanker
